import Mathlib

set_option maxRecDepth 20000

/-!
Verification development for the packet_device resource lifecycle of the
terraform-provider-packet repository.  The Go source (resource_packet_device.go)
is shallowly embedded below: the remote client is an oracle giving the result of
the n-th call of each API method, terraform's ResourceData is a record of the
schema's attributes, and each CRUD function is a pure function threading an
explicit state.  The generic wait primitive (hashicorp's
StateChangeConf.WaitForState) is not part of this repository's sources, so it is
modelled from the specification's description of the Attribute Poller.
-/

/-- Network address attached to a device (packngo IPAddress as consumed here):
family 4 or 6, public flag, address string. -/
structure NetworkAddress where
  family : Nat
  public : Bool
  address : String
deriving DecidableEq

/-- Remote device snapshot, restricted to the fields the provider consumes
(packngo Device: ID, OS.Slug, Hostname, Facility.Code, Plan.Slug, State,
Locked, Network). -/
structure Device where
  id : String
  osSlug : String
  hostname : String
  facilityCode : String
  planSlug : String
  state : String
  locked : Bool
  network : List NetworkAddress
deriving DecidableEq

/-- Connection info map set by Read (d.SetConnInfo with keys type and host). -/
structure ConnInfo where
  type : String
  host : String
deriving DecidableEq

/-- Terraform ResourceData for the packet_device schema.  String attributes use
the empty string as the unset zero value (Go GetOk reports ok only for a
non-zero value).  lockedOld is the prior value of the locked flag, so that
HasChange("locked") is lockedOld different from locked, and Get("locked")
returns the new value locked. -/
structure ResourceData where
  id : String
  os : String
  hostname : String
  facility : String
  plan : String
  projectId : String
  userData : String
  tags : List String
  state : String
  locked : Bool
  lockedOld : Bool
  ipv4Address : String
  ipv4AddressPrivate : String
  ipv6Address : String
  connInfo : ConnInfo
deriving DecidableEq

/-- packngo DeviceCreateRequest as built by resourcePacketDeviceCreate. -/
structure DeviceCreateRequest where
  os : String
  hostName : String
  facility : String
  plan : String
  projectId : String
  billingCycle : String
  userData : String
  tags : List String
deriving DecidableEq

/-- Oracle for the remote client: each method maps the number of earlier calls
of that method and the argument to a result.  Errors are their Go error
strings; Option String is none on success. -/
structure Client where
  get : Nat → String → Except String Device
  devDelete : Nat → String → Option String
  lock : Nat → String → Option String
  unlock : Nat → String → Option String
  create : Nat → DeviceCreateRequest → Except String Device

/-- Execution state threaded through the embedded operations: the local
ResourceData plus one call counter per client method. -/
structure RState where
  d : ResourceData
  getCount : Nat
  deleteCount : Nat
  lockCount : Nat
  unlockCount : Nat
  createCount : Nat
deriving DecidableEq

/-- Result triple of a StateRefreshFunc: (interface{}, string, error). -/
structure RefreshOut where
  obj : Option Device
  value : String
  err : Option String
deriving DecidableEq

/-- Tests whether pat occurs at the head of s, character by character. -/
def leadsWith : List Char → List Char → Bool
  | [], _ => true
  | _ :: _, [] => false
  | p :: ps, c :: cs => p == c && leadsWith ps cs

/-- Tests whether pat occurs as a contiguous substring of s. -/
def containsSub (pat : List Char) : List Char → Bool
  | [] => leadsWith pat []
  | c :: rest => leadsWith pat (c :: rest) || containsSub pat rest

/-- Go strings.Contains(s, pat). -/
def strContains (s pat : String) : Bool :=
  containsSub pat.data s.data

/-- The error-text marker the source uses to detect a vanished resource. -/
def notFoundStr : String := "404 Not Found"

/-- Terraform d.Get for the string attributes of the packet_device schema,
looked up by attribute name; unknown names give the zero value.  (The only
name the source ever passes to the refresh machinery is "state".) -/
def getAttr (d : ResourceData) : String → String
  | "os" => d.os
  | "hostname" => d.hostname
  | "facility" => d.facility
  | "plan" => d.plan
  | "state" => d.state
  | "ipv4_address" => d.ipv4Address
  | "ipv4_address_private" => d.ipv4AddressPrivate
  | "ipv6_address" => d.ipv6Address
  | _ => ""

/-- The address-classification loop of resourcePacketDeviceRead: iterates the
device's network list, carrying the publicIPv4 local variable and the
ResourceData being updated.  Each matching entry assigns the bucket again, as
in the source (d.Set inside the loop with no already-set guard). -/
def scanNetwork : List NetworkAddress → String → ResourceData → String × ResourceData
  | [], publicIPv4, d => (publicIPv4, d)
  | addr :: rest, publicIPv4, d =>
    if addr.family = 4 then
      if addr.public then
        scanNetwork rest addr.address { d with ipv4Address := addr.address }
      else
        scanNetwork rest publicIPv4 { d with ipv4AddressPrivate := addr.address }
    else if addr.family = 6 then
      if addr.public then
        scanNetwork rest publicIPv4 { d with ipv6Address := addr.address }
      else
        scanNetwork rest publicIPv4 d
    else
      scanNetwork rest publicIPv4 d

/-- resourcePacketDeviceRead: fetch the device; on an error containing
"404 Not Found" clear the local id and succeed; on another error wrap it;
otherwise set the attribute fields, run the address scan, and set the
connection info (type ssh, host the publicIPv4 local variable). -/
def resourcePacketDeviceRead (client : Client) (s : RState) : RState × Option String :=
  let res := client.get s.getCount s.d.id
  let s1 : RState := { s with getCount := s.getCount + 1 }
  match res with
  | .error e =>
    if strContains e notFoundStr then
      ({ s1 with d := { s1.d with id := "" } }, none)
    else
      (s1, some ("Error retrieving device: " ++ e))
  | .ok dev =>
    let d0 := { s1.d with
      os := dev.osSlug
      hostname := dev.hostname
      facility := dev.facilityCode
      plan := dev.planSlug
      state := dev.state
      locked := dev.locked }
    let pr := scanNetwork dev.network "" d0
    let d1 := { pr.2 with connInfo := { type := "ssh", host := pr.1 } }
    ({ s1 with d := d1 }, none)

/-- newDeviceStateRefreshFunc: run the embedded Read; on its error, fail the
tick; if the awaited attribute is now a non-zero value (GetOk), fetch the
device a second time and return it as the snapshot together with the
attribute value from the first fetch; otherwise report no value yet. -/
def newDeviceStateRefreshFunc (client : Client) (attrName : String) (s : RState) :
    RState × RefreshOut :=
  match resourcePacketDeviceRead client s with
  | (s1, some e) => (s1, ⟨none, "", some e⟩)
  | (s1, none) =>
    let attr := getAttr s1.d attrName
    if attr ≠ "" then
      let res := client.get s1.getCount s1.d.id
      let s2 : RState := { s1 with getCount := s1.getCount + 1 }
      match res with
      | .error e => (s2, ⟨none, "", some ("Error retrieving device: " ++ e)⟩)
      | .ok dev => (s2, ⟨some dev, attr, none⟩)
    else
      (s1, ⟨none, "", none⟩)

/-- Outcome of a wait: the four mutually distinct results of the poller. -/
inductive WaitResult where
  | success (dev : Device)
  | refreshErr (e : String)
  | unexpectedState (value : String)
  | timedOut
deriving DecidableEq

/-- Configuration of a wait (terraform StateChangeConf), durations in
seconds. -/
structure StateChangeConf where
  pending : List String
  target : String
  timeout : Nat
  delay : Nat
  minTimeout : Nat
deriving DecidableEq

/-- Modelled from the spec: the generic wait primitive (hashicorp helper
StateChangeConf.WaitForState, whose implementation is not among this
repository's sources).  Following the specification's Attribute Poller
contract: on each tick, if the poll time exceeds the timeout budget the wait
ends with the distinct timedOut result; otherwise invoke the refresh function;
a refresh error aborts immediately; no observed object means still waiting;
the target value succeeds with the snapshot; a pending value continues; any
other value aborts identifying the unexpected value.  The poll times are given
by a schedule (sched n = time of the n-th poll in seconds); the spec requires
the first poll to happen after the initial delay and later polls to be spaced
at least minTimeout apart, which theorems impose as hypotheses on sched.
Returns the threaded state, the result, and the number of refresh calls. -/
def waitForStateRec {σ : Type} (refresh : σ → σ × RefreshOut) (conf : StateChangeConf)
    (sched : Nat → Nat) : Nat → Nat → σ → σ × WaitResult × Nat
  | 0, _, s => (s, .timedOut, 0)
  | fuel + 1, n, s =>
    if conf.timeout < sched n then
      (s, .timedOut, 0)
    else
      match (refresh s).2.err with
      | some e => ((refresh s).1, .refreshErr e, 1)
      | none =>
        match (refresh s).2.obj with
        | none =>
          let r := waitForStateRec refresh conf sched fuel (n + 1) (refresh s).1
          (r.1, r.2.1, r.2.2 + 1)
        | some dev =>
          if (refresh s).2.value = conf.target then
            ((refresh s).1, .success dev, 1)
          else if conf.pending.contains (refresh s).2.value then
            let r := waitForStateRec refresh conf sched fuel (n + 1) (refresh s).1
            (r.1, r.2.1, r.2.2 + 1)
          else
            ((refresh s).1, .unexpectedState (refresh s).2.value, 1)

/-- Modelled from the spec: top-level entry of the wait primitive.  The fuel
timeout + 2 suffices for every schedule whose polls are at least one second
apart, since poll times then pass the timeout before the fuel runs out. -/
def waitForState {σ : Type} (refresh : σ → σ × RefreshOut) (conf : StateChangeConf)
    (sched : Nat → Nat) (s : σ) : σ × WaitResult × Nat :=
  waitForStateRec refresh conf sched (conf.timeout + 2) 0 s

/-- Modelled from the spec: the error value WaitForState hands back to its
callers, none exactly on success (message texts stand in for the helper
library's; callers of the source only test nil-ness and embed the text). -/
def waitErrorMsg : WaitResult → Option String
  | .success _ => none
  | .refreshErr e => some e
  | .unexpectedState v => some ("unexpected state: " ++ v)
  | .timedOut => some "timeout while waiting for state"

/-- WaitForDeviceAttribute: every device wait uses a 60-minute timeout, a
10-second initial delay and a 3-second minimum interval, with
newDeviceStateRefreshFunc as the refresh function. -/
def WaitForDeviceAttribute (client : Client) (target : String) (pending : List String)
    (attrName : String) (sched : Nat → Nat) (s : RState) : RState × WaitResult × Nat :=
  waitForState (newDeviceStateRefreshFunc client attrName)
    { pending := pending, target := target, timeout := 60 * 60, delay := 10, minTimeout := 3 }
    sched s

/-- The creation options resourcePacketDeviceCreate builds from the declared
configuration.  UserData is set only under GetOk in the source, which equals
copying it since the zero value is the empty string; the tags loop copies the
configured list in order. -/
def mkCreateOpts (d : ResourceData) : DeviceCreateRequest :=
  { os := d.os
    hostName := d.hostname
    facility := d.facility
    plan := d.plan
    projectId := d.projectId
    billingCycle := "hourly"
    userData := d.userData
    tags := d.tags }

/-- resourcePacketDeviceCreate: submit the create request; on error wrap it;
on success assign the returned ID to the resource, wait for state active
(pending queued, provisioning), wrap a wait failure, and finish with Read. -/
def resourcePacketDeviceCreate (client : Client) (sched : Nat → Nat) (s : RState) :
    RState × Option String :=
  let opts := mkCreateOpts s.d
  let res := client.create s.createCount opts
  let s1 : RState := { s with createCount := s.createCount + 1 }
  match res with
  | .error e => (s1, some ("Error creating device: " ++ e))
  | .ok dev =>
    let s2 : RState := { s1 with d := { s1.d with id := dev.id } }
    let w := WaitForDeviceAttribute client "active" ["queued", "provisioning"] "state" sched s2
    match waitErrorMsg w.2.1 with
    | some e =>
      (w.1, some ("Error waiting for device (" ++ w.1.d.id ++ ") to become ready: " ++ e))
    | none => resourcePacketDeviceRead client w.1

/-- resourcePacketDeviceUpdate: if the locked flag changed, call Lock or
Unlock according to the new value and wrap a failure; otherwise, and after a
successful lock step, finish with Read. -/
def resourcePacketDeviceUpdate (client : Client) (s : RState) : RState × Option String :=
  if s.d.lockedOld ≠ s.d.locked then
    if s.d.locked then
      let res := client.lock s.lockCount s.d.id
      let s1 : RState := { s with lockCount := s.lockCount + 1 }
      match res with
      | some e => (s1, some ("Error locking device (" ++ s.d.id ++ "): " ++ e))
      | none => resourcePacketDeviceRead client s1
    else
      let res := client.unlock s.unlockCount s.d.id
      let s1 : RState := { s with unlockCount := s.unlockCount + 1 }
      match res with
      | some e => (s1, some ("Error unlocking device (" ++ s.d.id ++ "): " ++ e))
      | none => resourcePacketDeviceRead client s1
  else
    resourcePacketDeviceRead client s

/-- resourcePacketDeviceDelete: wait for state active (pending queued,
provisioning) and wrap a wait failure; then issue the delete call, treating an
error containing "404 Not Found" as success and wrapping any other error. -/
def resourcePacketDeviceDelete (client : Client) (sched : Nat → Nat) (s : RState) :
    RState × Option String :=
  let w := WaitForDeviceAttribute client "active" ["queued", "provisioning"] "state" sched s
  match waitErrorMsg w.2.1 with
  | some e =>
    (w.1, some ("Error waiting for device to be active for destroy (" ++ w.1.d.id ++ "): " ++ e))
  | none =>
    let res := client.devDelete w.1.deleteCount w.1.d.id
    let s2 : RState := { w.1 with deleteCount := w.1.deleteCount + 1 }
    match res with
    | some e =>
      if strContains e notFoundStr then (s2, none)
      else (s2, some ("Error deleting device: " ++ e))
    | none => (s2, none)

/-- Last element of a list, or a default when the list is empty.  Captures the
value a repeatedly reassigned variable holds after a loop. -/
def lastD : List String → String → String
  | [], dflt => dflt
  | x :: xs, _ => lastD xs x

/-- Addresses of the public IPv4 class, in list order. -/
def pub4Addrs : List NetworkAddress → List String
  | [] => []
  | a :: rest =>
    if a.family = 4 ∧ a.public then a.address :: pub4Addrs rest else pub4Addrs rest

/-- Addresses of the private IPv4 class, in list order. -/
def priv4Addrs : List NetworkAddress → List String
  | [] => []
  | a :: rest =>
    if a.family = 4 ∧ ¬ a.public then a.address :: priv4Addrs rest else priv4Addrs rest

/-- Addresses of the public IPv6 class, in list order. -/
def pub6Addrs : List NetworkAddress → List String
  | [] => []
  | a :: rest =>
    if a.family = 6 ∧ a.public then a.address :: pub6Addrs rest else pub6Addrs rest

/-- The address scan resolves to the last-seen entry of each class, leaving a
bucket unchanged when its class is absent. -/
theorem scanNetwork_eq (l : List NetworkAddress) : ∀ (pub : String) (d : ResourceData),
    scanNetwork l pub d =
      (lastD (pub4Addrs l) pub,
       { d with ipv4Address := lastD (pub4Addrs l) d.ipv4Address
                ipv4AddressPrivate := lastD (priv4Addrs l) d.ipv4AddressPrivate
                ipv6Address := lastD (pub6Addrs l) d.ipv6Address }) := by
  induction l with
  | nil => intro pub d; rfl
  | cons a rest ih =>
    intro pub d
    by_cases h4 : a.family = 4
    · by_cases hp : a.public
      · simp [scanNetwork, pub4Addrs, priv4Addrs, pub6Addrs, h4, hp, ih, lastD]
      · simp [scanNetwork, pub4Addrs, priv4Addrs, pub6Addrs, h4, hp, ih, lastD]
    · by_cases h6 : a.family = 6
      · by_cases hp : a.public
        · simp [scanNetwork, pub4Addrs, priv4Addrs, pub6Addrs, h4, h6, hp, ih, lastD]
        · simp [scanNetwork, pub4Addrs, priv4Addrs, pub6Addrs, h4, h6, hp, ih, lastD]
      · simp [scanNetwork, pub4Addrs, priv4Addrs, pub6Addrs, h4, h6, ih, lastD]

/-- Read on a successful fetch: increments the get counter and rewrites the
tracked attributes from the snapshot, with each address bucket taking the
last-seen entry of its class and the connection host the last public IPv4. -/
theorem read_ok (client : Client) (s : RState) (dev : Device)
    (hg : client.get s.getCount s.d.id = .ok dev) :
    resourcePacketDeviceRead client s =
      ({ s with
          getCount := s.getCount + 1
          d := { s.d with
            os := dev.osSlug, hostname := dev.hostname, facility := dev.facilityCode,
            plan := dev.planSlug, state := dev.state, locked := dev.locked,
            ipv4Address := lastD (pub4Addrs dev.network) s.d.ipv4Address,
            ipv4AddressPrivate := lastD (priv4Addrs dev.network) s.d.ipv4AddressPrivate,
            ipv6Address := lastD (pub6Addrs dev.network) s.d.ipv6Address,
            connInfo := { type := "ssh", host := lastD (pub4Addrs dev.network) "" } } }, none) := by
  simp [resourcePacketDeviceRead, hg, scanNetwork_eq]

/-- Read on a not-found error: clears the id, succeeds, touches nothing else. -/
theorem read_error_404 (client : Client) (s : RState) (e : String)
    (hg : client.get s.getCount s.d.id = .error e)
    (h404 : strContains e notFoundStr = true) :
    resourcePacketDeviceRead client s =
      ({ s with getCount := s.getCount + 1, d := { s.d with id := "" } }, none) := by
  simp [resourcePacketDeviceRead, hg, h404]

/-- Read on any other error: wraps the error and leaves the data unchanged. -/
theorem read_error_other (client : Client) (s : RState) (e : String)
    (hg : client.get s.getCount s.d.id = .error e)
    (h404 : strContains e notFoundStr = false) :
    resourcePacketDeviceRead client s =
      ({ s with getCount := s.getCount + 1 }, some ("Error retrieving device: " ++ e)) := by
  simp [resourcePacketDeviceRead, hg, h404]

/-- Read changes no call counter other than the get counter. -/
theorem read_counts (client : Client) (s : RState) :
    (resourcePacketDeviceRead client s).1.lockCount = s.lockCount ∧
    (resourcePacketDeviceRead client s).1.unlockCount = s.unlockCount ∧
    (resourcePacketDeviceRead client s).1.deleteCount = s.deleteCount ∧
    (resourcePacketDeviceRead client s).1.createCount = s.createCount ∧
    (resourcePacketDeviceRead client s).1.getCount = s.getCount + 1 := by
  cases hg : client.get s.getCount s.d.id with
  | error e =>
    by_cases h404 : strContains e notFoundStr = true
    · rw [read_error_404 client s e hg h404]
      exact ⟨rfl, rfl, rfl, rfl, rfl⟩
    · rw [read_error_other client s e hg (by simpa using h404)]
      exact ⟨rfl, rfl, rfl, rfl, rfl⟩
  | ok dev =>
    rw [read_ok client s dev hg]
    exact ⟨rfl, rfl, rfl, rfl, rfl⟩

-- Fixtures shared by the concrete instances below.

/-- ResourceData with every attribute at its zero value. -/
def emptyData : ResourceData :=
  { id := "", os := "", hostname := "", facility := "", plan := "", projectId := ""
    userData := "", tags := [], state := "", locked := false, lockedOld := false
    ipv4Address := "", ipv4AddressPrivate := "", ipv6Address := ""
    connInfo := { type := "", host := "" } }

/-- Fresh execution state over emptyData. -/
def emptyState : RState :=
  { d := emptyData, getCount := 0, deleteCount := 0, lockCount := 0, unlockCount := 0,
    createCount := 0 }

/-- Schedule polling at exactly the configured minimum: first poll at the
10-second delay, then every 3 seconds. -/
def minSched : Nat → Nat := fun n => 10 + 3 * n

/-- Device carrying two public IPv4 addresses (same class twice). -/
def devC1 : Device :=
  { id := "dev1", osSlug := "ubuntu", hostname := "h", facilityCode := "ewr1",
    planSlug := "baremetal_1", state := "active", locked := false,
    network := [⟨4, true, "147.1.1.1"⟩, ⟨4, true, "147.2.2.2"⟩] }

/-- Client whose Get always returns devC1. -/
def clientC1 : Client :=
  { get := fun _ _ => .ok devC1, devDelete := fun _ _ => none, lock := fun _ _ => none,
    unlock := fun _ _ => none, create := fun _ _ => .error "unused" }

/-- Local state tracking devC1. -/
def stateC1 : RState := { emptyState with d := { emptyData with id := "dev1" } }

/-- C1 counterexample: on a list with two public IPv4 addresses, Read records
the second one — the later entry of the class overwrites the first, so
first-seen-wins fails. -/
theorem c1_counterexample :
    (resourcePacketDeviceRead clientC1 stateC1).1.d.ipv4Address = "147.2.2.2" ∧
    ¬ (resourcePacketDeviceRead clientC1 stateC1).1.d.ipv4Address = "147.1.1.1" := by
  decide

/-- C1 (corrected): during Read, scanning the device's network address list
records the LAST public IPv4 address as ipv4_address, the last private IPv4 as
ipv4_address_private, and the last public IPv6 as ipv6_address — later entries
of the same (family, public/private) class DO overwrite the recorded value
(last-seen wins); a class with no entries leaves the previous value unchanged,
and the connection host is the last public IPv4 (empty if none). -/
theorem c1_last_seen_wins (client : Client) (s : RState) (dev : Device)
    (hg : client.get s.getCount s.d.id = .ok dev) :
    (resourcePacketDeviceRead client s).2 = none ∧
    (resourcePacketDeviceRead client s).1.d.ipv4Address =
      lastD (pub4Addrs dev.network) s.d.ipv4Address ∧
    (resourcePacketDeviceRead client s).1.d.ipv4AddressPrivate =
      lastD (priv4Addrs dev.network) s.d.ipv4AddressPrivate ∧
    (resourcePacketDeviceRead client s).1.d.ipv6Address =
      lastD (pub6Addrs dev.network) s.d.ipv6Address ∧
    (resourcePacketDeviceRead client s).1.d.connInfo.host =
      lastD (pub4Addrs dev.network) "" := by
  rw [read_ok client s dev hg]
  exact ⟨rfl, rfl, rfl, rfl, rfl⟩

/-- Device matching the specification's read scenario, with a second private
IPv4 appended to exercise overwriting in every class. -/
def devC1w : Device :=
  { devC1 with
    network := [⟨4, false, "10.0.0.5"⟩, ⟨4, true, "147.1.2.3"⟩, ⟨6, true, "2604::1"⟩] }

/-- Client whose Get always returns devC1w. -/
def clientC1w : Client := { clientC1 with get := fun _ _ => .ok devC1w }

/-- C1 witness: concrete run of the corrected read classification. -/
theorem c1_witness :
    (resourcePacketDeviceRead clientC1w stateC1).2 = none ∧
    (resourcePacketDeviceRead clientC1w stateC1).1.d.ipv4Address = "147.1.2.3" ∧
    (resourcePacketDeviceRead clientC1w stateC1).1.d.ipv4AddressPrivate = "10.0.0.5" ∧
    (resourcePacketDeviceRead clientC1w stateC1).1.d.ipv6Address = "2604::1" ∧
    (resourcePacketDeviceRead clientC1w stateC1).1.d.connInfo.host = "147.1.2.3" := by
  have h := c1_last_seen_wins clientC1w stateC1 devC1w rfl
  refine ⟨h.1, ?_, ?_, ?_, ?_⟩
  · rw [h.2.1]; decide
  · rw [h.2.2.1]; decide
  · rw [h.2.2.2.1]; decide
  · rw [h.2.2.2.2]; decide

/-- C4: for every Read where the remote Get errors, Read clears the tracked
identity and succeeds without populating anything when the error signals
not-found, and returns the wrapped error with nothing changed otherwise. -/
theorem c4_read_notfound (client : Client) (s : RState) (e : String)
    (hg : client.get s.getCount s.d.id = .error e) :
    resourcePacketDeviceRead client s =
      (if strContains e notFoundStr then
        ({ s with getCount := s.getCount + 1, d := { s.d with id := "" } }, none)
      else
        ({ s with getCount := s.getCount + 1 }, some ("Error retrieving device: " ++ e))) := by
  by_cases h404 : strContains e notFoundStr = true
  · rw [read_error_404 client s e hg h404, if_pos h404]
  · have h404f : strContains e notFoundStr = false := by simpa using h404
    rw [read_error_other client s e hg h404f, if_neg (by simp [h404f])]

/-- Client whose Get always reports not-found. -/
def clientC4a : Client := { clientC1 with get := fun _ _ => .error "404 Not Found" }

/-- Client whose Get always fails with an unrelated error. -/
def clientC4b : Client := { clientC1 with get := fun _ _ => .error "boom" }

/-- C4 witness: the not-found branch clears the id and succeeds; the other
branch wraps the error and leaves the data unchanged. -/
theorem c4_witness :
    resourcePacketDeviceRead clientC4a stateC1 =
      ({ stateC1 with getCount := 1, d := { stateC1.d with id := "" } }, none) ∧
    resourcePacketDeviceRead clientC4b stateC1 =
      ({ stateC1 with getCount := 1 }, some "Error retrieving device: boom") := by
  constructor
  · rw [c4_read_notfound clientC4a stateC1 "404 Not Found" rfl]; decide
  · rw [c4_read_notfound clientC4b stateC1 "boom" rfl]; decide

/-- Local state tracking a device whose state attribute is still unset. -/
def stateC2 : RState := { emptyState with d := { emptyData with id := "dev1" } }

/-- C2 counterexample: the remote Get reports not-found, yet the refresh
function returns no error and no object at all — indistinguishable from an
ordinary still-waiting tick — while the embedded Read has already cleared the
local id.  The absence is swallowed, not reported distinctly. -/
theorem c2_counterexample :
    clientC4a.get stateC2.getCount stateC2.d.id = .error "404 Not Found" ∧
    strContains "404 Not Found" notFoundStr = true ∧
    (newDeviceStateRefreshFunc clientC4a "state" stateC2).2.err = none ∧
    (newDeviceStateRefreshFunc clientC4a "state" stateC2).2.obj = none ∧
    (newDeviceStateRefreshFunc clientC4a "state" stateC2).1.d.id = "" := by
  refine ⟨rfl, by decide, by decide, by decide, by decide⟩

/-- C2 (corrected): when the remote Get reports not-found, the refresh
function never reports the absence distinctly: the embedded Read swallows it,
clearing the local id and returning success; the refresh then reports an
ordinary still-waiting tick (no object, no value, no error) when the awaited
attribute is unset, or re-fetches with the now-empty id and returns whatever
that produces — a generically wrapped error or a snapshot — when it is set. -/
theorem c2_refresh_swallows_notfound (client : Client) (attrName : String) (s : RState)
    (e : String)
    (hg : client.get s.getCount s.d.id = .error e)
    (h404 : strContains e notFoundStr = true) :
    newDeviceStateRefreshFunc client attrName s =
      (if getAttr { s.d with id := "" } attrName = "" then
        ({ s with getCount := s.getCount + 1, d := { s.d with id := "" } },
         ⟨none, "", none⟩)
      else
        match client.get (s.getCount + 1) "" with
        | .error e2 =>
          ({ s with getCount := s.getCount + 2, d := { s.d with id := "" } },
           ⟨none, "", some ("Error retrieving device: " ++ e2)⟩)
        | .ok dev =>
          ({ s with getCount := s.getCount + 2, d := { s.d with id := "" } },
           ⟨some dev, getAttr { s.d with id := "" } attrName, none⟩)) := by
  have hr := read_error_404 client s e hg h404
  by_cases ha : getAttr { s.d with id := "" } attrName = ""
  · simp [newDeviceStateRefreshFunc, hr, ha]
  · cases h2 : client.get (s.getCount + 1) "" with
    | error e2 =>
      simp [newDeviceStateRefreshFunc, hr, ha, h2]
    | ok dev =>
      simp [newDeviceStateRefreshFunc, hr, ha, h2]

/-- Client whose first Get reports not-found and whose later Gets (issued with
the cleared, empty id) fail with an unrelated error. -/
def clientC2w : Client :=
  { clientC1 with
    get := fun _ id => if id = "dev1" then .error "404 Not Found" else .error "boom" }

/-- Local state with the state attribute already populated, as during a wait
that follows an earlier successful read. -/
def stateC2w : RState := { emptyState with d := { emptyData with id := "dev1", state := "active" } }

/-- C2 witness: with the awaited attribute set, the not-found tick turns into
a generically wrapped error from re-fetching with the cleared id. -/
theorem c2_witness :
    newDeviceStateRefreshFunc clientC2w "state" stateC2w =
      ({ stateC2w with getCount := 2, d := { stateC2w.d with id := "" } },
       ⟨none, "", some "Error retrieving device: boom"⟩) := by
  rw [c2_refresh_swallows_notfound clientC2w "state" stateC2w "404 Not Found" rfl (by decide)]
  decide

/-- Client for a remotely destroyed device: every Get reports not-found, and
the Delete call would also report not-found. -/
def clientC3 : Client :=
  { clientC1 with
    get := fun _ _ => .error "404 Not Found",
    devDelete := fun _ _ => some "404 Not Found" }

/-- Local state of the destroyed device as the last apply left it. -/
def stateC3 : RState := { emptyState with d := { emptyData with id := "dev1", state := "active" } }

/-- C3 (code bug): deleting a remotely destroyed device fails.  The pre-delete
wait's refresh observes not-found, but the embedded Read swallows it and
clears the id; the refresh then re-fetches with the empty id, errors, and the
wait aborts, so Delete surfaces a wait error and never reaches its own
not-found-tolerant delete call — even though that call would have returned
not-found and been treated as success. -/
theorem c3_delete_vanished_errors :
    (resourcePacketDeviceDelete clientC3 minSched stateC3).2 =
      some "Error waiting for device to be active for destroy (): Error retrieving device: 404 Not Found" ∧
    (resourcePacketDeviceDelete clientC3 minSched stateC3).1.deleteCount = 0 ∧
    clientC3.devDelete 0 "dev1" = some "404 Not Found" := by
  refine ⟨by decide, by decide, rfl⟩

/-- Device as returned by a successful create call, still provisioning. -/
def devC5 : Device :=
  { id := "dev1", osSlug := "ubuntu", hostname := "h", facilityCode := "ewr1",
    planSlug := "baremetal_1", state := "queued", locked := false, network := [] }

/-- Client whose Create succeeds and whose Gets report not-found for the
created id and fail plainly for the empty id. -/
def clientC5 : Client :=
  { clientC1 with
    create := fun _ _ => .ok devC5,
    get := fun _ id => if id = "dev1" then .error "404 Not Found" else .error "boom" }

/-- C5 counterexample: Create persists the returned id, the wait fails, and
Create surfaces a wrapped error — but the tracked identity is empty, not the
created id: a refresh that observed not-found during the wait cleared it. -/
theorem c5_counterexample :
    clientC5.create 0 (mkCreateOpts emptyState.d) = .ok devC5 ∧
    devC5.id = "dev1" ∧
    (resourcePacketDeviceCreate clientC5 minSched emptyState).2.isSome = true ∧
    (resourcePacketDeviceCreate clientC5 minSched emptyState).1.d.id = "" := by
  refine ⟨rfl, rfl, by decide, by decide⟩

/-- C5 (corrected): once the remote Create succeeds, the returned ID is
persisted as the resource's identity before the wait for the active state
begins, and on every wait failure Create surfaces a wrapped error and performs
no rollback of its own — the final state is exactly what the wait's refreshes
left, which still tracks the created ID unless a refresh observed not-found
during the wait (the embedded Read then cleared it). -/
theorem c5_id_persisted_before_wait (client : Client) (sched : Nat → Nat) (s : RState)
    (dev : Device) (e : String)
    (hc : client.create s.createCount (mkCreateOpts s.d) = .ok dev)
    (hw : waitErrorMsg
        (WaitForDeviceAttribute client "active" ["queued", "provisioning"] "state" sched
          { s with createCount := s.createCount + 1,
                   d := { s.d with id := dev.id } }).2.1 = some e) :
    resourcePacketDeviceCreate client sched s =
      ((WaitForDeviceAttribute client "active" ["queued", "provisioning"] "state" sched
          { s with createCount := s.createCount + 1, d := { s.d with id := dev.id } }).1,
       some ("Error waiting for device ("
         ++ (WaitForDeviceAttribute client "active" ["queued", "provisioning"] "state" sched
               { s with createCount := s.createCount + 1,
                        d := { s.d with id := dev.id } }).1.d.id
         ++ ") to become ready: " ++ e)) := by
  simp only [resourcePacketDeviceCreate, hc, hw]

/-- Client whose Create succeeds and whose Gets fail with a non-not-found
error, so the wait fails without clearing the identity. -/
def clientC5w : Client :=
  { clientC1 with
    create := fun _ _ => .ok devC5,
    get := fun _ _ => .error "bad gateway" }

/-- C5 witness: on this wait failure the created id is still tracked. -/
theorem c5_witness :
    (resourcePacketDeviceCreate clientC5w minSched emptyState).2 =
      some "Error waiting for device (dev1) to become ready: Error retrieving device: bad gateway" ∧
    (resourcePacketDeviceCreate clientC5w minSched emptyState).1.d.id = "dev1" := by
  rw [c5_id_persisted_before_wait clientC5w minSched emptyState devC5
    "Error retrieving device: bad gateway" rfl (by decide)]
  exact ⟨by decide, by decide⟩

/-- C6: for every Update — if the locked flag did not change, neither Lock nor
Unlock is called and the update is exactly a Read; if it changed to true, Lock
is called exactly once and Unlock never, a Lock failure aborts with a wrapped
error before any Read, and a Lock success concludes with a Read to resync; and
symmetrically for a change to false with Unlock. -/
theorem c6_update_locking (client : Client) (s : RState) :
    (s.d.lockedOld = s.d.locked →
      resourcePacketDeviceUpdate client s = resourcePacketDeviceRead client s ∧
      (resourcePacketDeviceUpdate client s).1.lockCount = s.lockCount ∧
      (resourcePacketDeviceUpdate client s).1.unlockCount = s.unlockCount) ∧
    (s.d.lockedOld ≠ s.d.locked → s.d.locked = true →
      (resourcePacketDeviceUpdate client s).1.lockCount = s.lockCount + 1 ∧
      (resourcePacketDeviceUpdate client s).1.unlockCount = s.unlockCount ∧
      (∀ e, client.lock s.lockCount s.d.id = some e →
        resourcePacketDeviceUpdate client s =
          ({ s with lockCount := s.lockCount + 1 },
           some ("Error locking device (" ++ s.d.id ++ "): " ++ e))) ∧
      (client.lock s.lockCount s.d.id = none →
        resourcePacketDeviceUpdate client s =
          resourcePacketDeviceRead client { s with lockCount := s.lockCount + 1 })) ∧
    (s.d.lockedOld ≠ s.d.locked → s.d.locked = false →
      (resourcePacketDeviceUpdate client s).1.unlockCount = s.unlockCount + 1 ∧
      (resourcePacketDeviceUpdate client s).1.lockCount = s.lockCount ∧
      (∀ e, client.unlock s.unlockCount s.d.id = some e →
        resourcePacketDeviceUpdate client s =
          ({ s with unlockCount := s.unlockCount + 1 },
           some ("Error unlocking device (" ++ s.d.id ++ "): " ++ e))) ∧
      (client.unlock s.unlockCount s.d.id = none →
        resourcePacketDeviceUpdate client s =
          resourcePacketDeviceRead client { s with unlockCount := s.unlockCount + 1 })) := by
  refine ⟨?_, ?_, ?_⟩
  · intro hch
    have hupd : resourcePacketDeviceUpdate client s = resourcePacketDeviceRead client s := by
      unfold resourcePacketDeviceUpdate
      rw [if_neg (by simp [hch])]
    refine ⟨hupd, ?_, ?_⟩
    · rw [hupd]; exact (read_counts client s).1
    · rw [hupd]; exact (read_counts client s).2.1
  · intro hch hl
    cases hres : client.lock s.lockCount s.d.id with
    | some e =>
      have hupd : resourcePacketDeviceUpdate client s =
          ({ s with lockCount := s.lockCount + 1 },
           some ("Error locking device (" ++ s.d.id ++ "): " ++ e)) := by
        unfold resourcePacketDeviceUpdate
        rw [if_pos hch, if_pos hl, hres]
      refine ⟨by rw [hupd], by rw [hupd], ?_, ?_⟩
      · intro e2 he2
        injection he2 with he3
        rw [← he3]
        exact hupd
      · intro hn
        exact Option.noConfusion hn
    | none =>
      have hupd : resourcePacketDeviceUpdate client s =
          resourcePacketDeviceRead client { s with lockCount := s.lockCount + 1 } := by
        unfold resourcePacketDeviceUpdate
        rw [if_pos hch, if_pos hl, hres]
      refine ⟨?_, ?_, ?_, fun _ => hupd⟩
      · rw [hupd]
        exact (read_counts client { s with lockCount := s.lockCount + 1 }).1
      · rw [hupd]
        exact (read_counts client { s with lockCount := s.lockCount + 1 }).2.1
      · intro e2 he2
        exact Option.noConfusion he2
  · intro hch hl
    have hlf : ¬ (s.d.locked = true) := by simp [hl]
    cases hres : client.unlock s.unlockCount s.d.id with
    | some e =>
      have hupd : resourcePacketDeviceUpdate client s =
          ({ s with unlockCount := s.unlockCount + 1 },
           some ("Error unlocking device (" ++ s.d.id ++ "): " ++ e)) := by
        unfold resourcePacketDeviceUpdate
        rw [if_pos hch, if_neg hlf, hres]
      refine ⟨by rw [hupd], by rw [hupd], ?_, ?_⟩
      · intro e2 he2
        injection he2 with he3
        rw [← he3]
        exact hupd
      · intro hn
        exact Option.noConfusion hn
    | none =>
      have hupd : resourcePacketDeviceUpdate client s =
          resourcePacketDeviceRead client { s with unlockCount := s.unlockCount + 1 } := by
        unfold resourcePacketDeviceUpdate
        rw [if_pos hch, if_neg hlf, hres]
      refine ⟨?_, ?_, ?_, fun _ => hupd⟩
      · rw [hupd]
        exact (read_counts client { s with unlockCount := s.unlockCount + 1 }).2.1
      · rw [hupd]
        exact (read_counts client { s with unlockCount := s.unlockCount + 1 }).1
      · intro e2 he2
        exact Option.noConfusion he2

/-- Client whose Lock and Unlock succeed and whose Get returns devC1. -/
def clientC6 : Client := clientC1

/-- Local state whose plan toggles locked from false to true. -/
def stateC6 : RState :=
  { emptyState with d := { emptyData with id := "dev1", locked := true, lockedOld := false } }

/-- C6 witness: toggling locked false to true calls Lock exactly once, never
Unlock, and concludes with a Read. -/
theorem c6_witness :
    (resourcePacketDeviceUpdate clientC6 stateC6).1.lockCount = 1 ∧
    (resourcePacketDeviceUpdate clientC6 stateC6).1.unlockCount = 0 ∧
    resourcePacketDeviceUpdate clientC6 stateC6 =
      resourcePacketDeviceRead clientC6 { stateC6 with lockCount := 1 } := by
  have h := (c6_update_locking clientC6 stateC6).2.1 (by decide) rfl
  exact ⟨h.1, h.2.1, h.2.2.2 rfl⟩

/-- Number of poll times the wait loop visits before the schedule passes the
timeout, limited by the fuel: counts successive indices n with sched n within
the timeout. -/
def pollCount (timeout : Nat) (sched : Nat → Nat) : Nat → Nat → Nat
  | 0, _ => 0
  | fuel + 1, n => if timeout < sched n then 0 else pollCount timeout sched fuel (n + 1) + 1

/-- State reached after iterating the refresh function's state transition a
given number of times. -/
def refreshStates {σ : Type} (f : σ → σ × RefreshOut) (s : σ) : Nat → σ
  | 0 => s
  | k + 1 => (f (refreshStates f s k)).1

/-- Iterating from the start equals iterating from the first transition. -/
theorem refreshStates_shift {σ : Type} (f : σ → σ × RefreshOut) (s : σ) :
    ∀ k, refreshStates f s (k + 1) = refreshStates f (f s).1 k := by
  intro k
  induction k with
  | zero => rfl
  | succ k ih =>
    show (f (refreshStates f s (k + 1))).1 = (f (refreshStates f (f s).1 k)).1
    rw [ih]

/-- A refresh output the wait loop keeps polling on: no error, and either no
object yet or an observed value that is pending and not the target. -/
def isPendingOut (conf : StateChangeConf) (r : RefreshOut) : Prop :=
  r.err = none ∧
    (r.obj = none ∨ (r.value ≠ conf.target ∧ conf.pending.contains r.value = true))

/-- When every refresh tick that occurs before the timeout elapses reports a
pending observation — no object yet, or any value that is in the pending set
and not the target, possibly different from tick to tick — the wait loop runs
to its timeout: it ends in the distinct timedOut result after exactly one
refresh call per scheduled poll time within the budget. -/
theorem waitRec_pending_run {σ : Type} (f : σ → σ × RefreshOut) (conf : StateChangeConf)
    (sched : Nat → Nat) :
    ∀ (fuel n : Nat) (s : σ),
      (∀ i, i < pollCount conf.timeout sched fuel n →
        isPendingOut conf (f (refreshStates f s i)).2) →
      (waitForStateRec f conf sched fuel n s).2 =
        (.timedOut, pollCount conf.timeout sched fuel n) := by
  intro fuel
  induction fuel with
  | zero => intro n s _; rfl
  | succ fl ih =>
    intro n s hp
    by_cases ht : conf.timeout < sched n
    · simp [waitForStateRec, pollCount, ht]
    · have hcnt : pollCount conf.timeout sched (fl + 1) n =
          pollCount conf.timeout sched fl (n + 1) + 1 := by
        simp [pollCount, ht]
      obtain ⟨he0, hcase⟩ := hp 0 (by rw [hcnt]; omega)
      have herr : (f s).2.err = none := he0
      have hp2 : ∀ i, i < pollCount conf.timeout sched fl (n + 1) →
          isPendingOut conf (f (refreshStates f (f s).1 i)).2 := by
        intro i hi
        have h := hp (i + 1) (by rw [hcnt]; omega)
        rwa [refreshStates_shift] at h
      have hih := ih (n + 1) (f s).1 hp2
      cases hobj : (f s).2.obj with
      | none =>
        simp only [waitForStateRec, ht, if_false]
        rw [herr, hobj]
        dsimp only
        rw [hcnt]
        simp [hih]
      | some dv =>
        have hval : (f s).2.value ≠ conf.target ∧
            conf.pending.contains (f s).2.value = true := by
          rcases hcase with h | h
          · exfalso
            have h2 : (f s).2.obj = none := h
            rw [hobj] at h2
            exact Option.noConfusion h2
          · exact h
        simp only [waitForStateRec, ht, if_false]
        rw [herr, hobj]
        dsimp only
        rw [if_neg hval.1, if_pos hval.2]
        rw [hcnt]
        simp [hih]

/-- If some poll time at or beyond the start index already exceeds the
timeout, the loop polls at most up to that index. -/
theorem pollCount_le (timeout : Nat) (sched : Nat → Nat) :
    ∀ (fuel n m : Nat), n ≤ m → timeout < sched m →
      pollCount timeout sched fuel n ≤ m - n := by
  intro fuel
  induction fuel with
  | zero => intro n m _ _; simp [pollCount]
  | succ fl ih =>
    intro n m hnm hm
    by_cases ht : timeout < sched n
    · simp [pollCount, ht]
    · have hne : n ≠ m := fun h => ht (h ▸ hm)
      have h1 := ih (n + 1) m (by omega) hm
      simp only [pollCount, ht, if_false]
      omega

/-- A schedule starting at the 10-second delay whose gaps are at least the
3-second minimum interval is bounded below by the minimal-interval times. -/
theorem sched_lower (sched : Nat → Nat) (h0 : sched 0 = 10)
    (hstep : ∀ k, sched k + 3 ≤ sched (k + 1)) : ∀ m, 10 + 3 * m ≤ sched m := by
  intro m
  induction m with
  | zero => omega
  | succ k ih =>
    have := hstep k
    omega

/-- Device still in the queued lifecycle state. -/
def devC7 : Device :=
  { id := "dev1", osSlug := "ubuntu", hostname := "h", facilityCode := "ewr1",
    planSlug := "baremetal_1", state := "queued", locked := false, network := [] }

/-- Client whose Get always returns the queued device. -/
def clientC7 : Client := { clientC1 with get := fun _ _ => .ok devC7 }

/-- Local state tracking devC7. -/
def stateC7 : RState := { emptyState with d := { emptyData with id := "dev1" } }

/-- C7 counterexample: with the configured 60-minute timeout, 10-second delay
and 3-second minimum interval, polling at exactly the minimum interval — the
densest schedule the spec allows — a refresh sequence that stays pending
until the timeout yields the distinct timedOut result after 1197 refresh
calls, which falls short of timeout / minInterval = 1200: the claimed lower
bound on the number of calls is unattainable. -/
theorem c7_counterexample :
    (WaitForDeviceAttribute clientC7 "active" ["queued", "provisioning"] "state" minSched
        stateC7).2.1 = .timedOut ∧
    (WaitForDeviceAttribute clientC7 "active" ["queued", "provisioning"] "state" minSched
        stateC7).2.2 = 1197 ∧
    ¬ ((WaitForDeviceAttribute clientC7 "active" ["queued", "provisioning"] "state" minSched
        stateC7).2.2 ≥ 60 * 60 / 3) := by
  have h : (WaitForDeviceAttribute clientC7 "active" ["queued", "provisioning"] "state" minSched
      stateC7).2 = (WaitResult.timedOut, 1197) := by
    decide
  refine ⟨congrArg Prod.fst h, congrArg Prod.snd h, ?_⟩
  rw [show (WaitForDeviceAttribute clientC7 "active" ["queued", "provisioning"] "state" minSched
      stateC7).2.2 = 1197 from congrArg Prod.snd h]
  decide

/-- C7 (corrected): every device wait is configured with a 60-minute timeout,
10-second initial delay and 3-second minimum interval; for every sequence of
refresh results that stays within the pending set until the timeout elapses —
each tick that occurs before the timeout reports no value yet or some pending,
non-target observation, possibly a different one per tick — over any schedule
obeying the configured delay and minimum interval the wait returns the
distinct timedOut result; but the refresh function is called at most
1197 = (timeout - delay) / minInterval + 1 times, not at least
timeout / minInterval = 1200 times (the initial delay and the minimum spacing
cap the achievable poll count; polling at exactly the minimum interval
attains 1197). -/
theorem c7_timeout_poll_bound (client : Client) (target : String) (pending : List String)
    (attrName : String) (sched : Nat → Nat) (s : RState)
    (hp : ∀ i, i < pollCount (60 * 60) sched (60 * 60 + 2) 0 →
      isPendingOut
        { pending := pending, target := target, timeout := 60 * 60, delay := 10,
          minTimeout := 3 }
        ((newDeviceStateRefreshFunc client attrName)
          (refreshStates (newDeviceStateRefreshFunc client attrName) s i)).2)
    (h0 : sched 0 = 10) (hstep : ∀ k, sched k + 3 ≤ sched (k + 1)) :
    WaitForDeviceAttribute client target pending attrName sched s =
      waitForState (newDeviceStateRefreshFunc client attrName)
        { pending := pending, target := target, timeout := 60 * 60, delay := 10, minTimeout := 3 }
        sched s ∧
    (WaitForDeviceAttribute client target pending attrName sched s).2.1 = .timedOut ∧
    (WaitForDeviceAttribute client target pending attrName sched s).2.2 ≤ 1197 := by
  have hall := waitRec_pending_run (newDeviceStateRefreshFunc client attrName)
    { pending := pending, target := target, timeout := 60 * 60, delay := 10, minTimeout := 3 }
    sched (60 * 60 + 2) 0 s hp
  have hWd : (WaitForDeviceAttribute client target pending attrName sched s).2 =
      (WaitResult.timedOut, pollCount (60 * 60) sched (60 * 60 + 2) 0) := hall
  refine ⟨rfl, congrArg Prod.fst hWd, ?_⟩
  rw [show (WaitForDeviceAttribute client target pending attrName sched s).2.2 =
      pollCount (60 * 60) sched (60 * 60 + 2) 0 from congrArg Prod.snd hWd]
  have hlb := sched_lower sched h0 hstep 1197
  have hle := pollCount_le (60 * 60) sched (60 * 60 + 2) 0 1197 (by omega) (by omega)
  omega

/-- C7 witness: a pending run over the minimal-interval schedule, discharging
the per-tick pending hypothesis. -/
theorem c7_witness :
    (WaitForDeviceAttribute clientC7 "active" ["queued", "provisioning"] "state" minSched
        { emptyState with d := { emptyData with id := "devw" } }).2.1 = .timedOut ∧
    (WaitForDeviceAttribute clientC7 "active" ["queued", "provisioning"] "state" minSched
        { emptyState with d := { emptyData with id := "devw" } }).2.2 ≤ 1197 := by
  have h := c7_timeout_poll_bound clientC7 "active" ["queued", "provisioning"] "state" minSched
    { emptyState with d := { emptyData with id := "devw" } }
    (fun i _ => ⟨rfl, Or.inr ⟨(by decide : ("queued" : String) ≠ "active"), rfl⟩⟩)
    rfl
    (fun k => by simp [minSched]; omega)
  exact ⟨h.2.1, h.2.2⟩

/-- Auxiliary induction for the unexpected-state abort, generalized over the
start index of the schedule. -/
theorem waitRec_unexpected_aux {σ : Type} (f : σ → σ × RefreshOut) (conf : StateChangeConf)
    (sched : Nat → Nat) (dev : Device) (v : String)
    (hvt : v ≠ conf.target) (hvp : conf.pending.contains v = false) :
    ∀ (k fuel n : Nat) (s : σ), k < fuel →
      (∀ i, i ≤ k → sched (n + i) ≤ conf.timeout) →
      (∀ i, i < k → isPendingOut conf (f (refreshStates f s i)).2) →
      (f (refreshStates f s k)).2 = ⟨some dev, v, none⟩ →
      waitForStateRec f conf sched fuel n s =
        (refreshStates f s (k + 1), .unexpectedState v, k + 1) := by
  intro k
  induction k with
  | zero =>
    intro fuel n s hf hs _ hk
    obtain ⟨fl, rfl⟩ : ∃ fl, fuel = fl + 1 := ⟨fuel - 1, by omega⟩
    have ht : ¬ conf.timeout < sched n := by
      have h := hs 0 (le_refl 0)
      rw [Nat.add_zero] at h
      omega
    have h2 : (f s).2 = ⟨some dev, v, none⟩ := hk
    have herr : (f s).2.err = none := by rw [h2]
    have hobj : (f s).2.obj = some dev := by rw [h2]
    have hval : (f s).2.value = v := by rw [h2]
    have hcont : ¬ conf.pending.contains v = true := by
      intro h
      exact absurd (hvp.symm.trans h) (by decide)
    simp only [waitForStateRec, ht, if_false]
    rw [herr, hobj, hval]
    dsimp only
    rw [if_neg hvt, if_neg hcont]
    rfl
  | succ k ih =>
    intro fuel n s hf hs hp hk
    obtain ⟨fl, rfl⟩ : ∃ fl, fuel = fl + 1 := ⟨fuel - 1, by omega⟩
    have ht : ¬ conf.timeout < sched n := by
      have h := hs 0 (by omega)
      rw [Nat.add_zero] at h
      omega
    obtain ⟨he0, hcase⟩ := hp 0 (by omega)
    have herr : (f s).2.err = none := he0
    have hrec : waitForStateRec f conf sched fl (n + 1) (f s).1 =
        (refreshStates f (f s).1 (k + 1), .unexpectedState v, k + 1) := by
      refine ih fl (n + 1) (f s).1 (by omega) ?_ ?_ ?_
      · intro i hi
        have h := hs (i + 1) (by omega)
        have harg : n + (i + 1) = n + 1 + i := by omega
        rwa [harg] at h
      · intro i hi
        have h := hp (i + 1) (by omega)
        rwa [refreshStates_shift] at h
      · have h := hk
        rwa [refreshStates_shift] at h
    have hshift : refreshStates f s (k + 1 + 1) = refreshStates f (f s).1 (k + 1) :=
      refreshStates_shift f s (k + 1)
    cases hobj : (f s).2.obj with
    | none =>
      simp only [waitForStateRec, ht, if_false]
      rw [herr, hobj]
      dsimp only
      rw [hrec]
      dsimp only
      rw [hshift]
    | some dv =>
      have hval : (f s).2.value ≠ conf.target ∧
          conf.pending.contains (f s).2.value = true := by
        rcases hcase with h | h
        · exfalso
          have h2 : (f s).2.obj = none := h
          rw [hobj] at h2
          exact Option.noConfusion h2
        · exact h
      simp only [waitForStateRec, ht, if_false]
      rw [herr, hobj]
      dsimp only
      rw [if_neg hval.1, if_pos hval.2]
      rw [hrec]
      dsimp only
      rw [hshift]

/-- C8: if some refresh call during a wait returns an observed value that is
neither the target nor in the pending set, while every earlier call reported
a pending observation, the wait aborts with the unexpectedState error naming
that value after exactly that many refresh calls — no further polling occurs
regardless of what later refresh calls would return. -/
theorem c8_unexpected_aborts {σ : Type} (f : σ → σ × RefreshOut) (conf : StateChangeConf)
    (sched : Nat → Nat) (dev : Device) (v : String) (k fuel : Nat) (s : σ)
    (hvt : v ≠ conf.target) (hvp : conf.pending.contains v = false)
    (hf : k < fuel)
    (hs : ∀ i, i ≤ k → sched i ≤ conf.timeout)
    (hp : ∀ i, i < k → isPendingOut conf (f (refreshStates f s i)).2)
    (hk : (f (refreshStates f s k)).2 = ⟨some dev, v, none⟩) :
    waitForStateRec f conf sched fuel 0 s =
      (refreshStates f s (k + 1), .unexpectedState v, k + 1) :=
  waitRec_unexpected_aux f conf sched dev v hvt hvp k fuel 0 s hf
    (fun i hi => by simpa using hs i hi) hp hk

/-- Device that reached an unexpected lifecycle state. -/
def devC8f : Device :=
  { id := "dev1", osSlug := "ubuntu", hostname := "h", facilityCode := "ewr1",
    planSlug := "baremetal_1", state := "failed", locked := false, network := [] }

/-- Client whose first refresh tick observes the queued device and whose
second observes the failed one (two Get calls per tick). -/
def clientC8 : Client :=
  { clientC1 with get := fun n _ => if n < 2 then .ok devC7 else .ok devC8f }

/-- Local state tracking the device observed by clientC8. -/
def stateC8 : RState := { emptyState with d := { emptyData with id := "dev1" } }

/-- C8 witness: a queued tick followed by a failed tick aborts the device wait
with the unexpectedState error after exactly two refresh calls. -/
theorem c8_witness :
    waitForStateRec (newDeviceStateRefreshFunc clientC8 "state")
        { pending := ["queued", "provisioning"], target := "active", timeout := 60 * 60,
          delay := 10, minTimeout := 3 }
        minSched (60 * 60 + 2) 0 stateC8 =
      (refreshStates (newDeviceStateRefreshFunc clientC8 "state") stateC8 2,
       .unexpectedState "failed", 2) := by
  exact c8_unexpected_aborts (newDeviceStateRefreshFunc clientC8 "state")
    { pending := ["queued", "provisioning"], target := "active", timeout := 60 * 60,
      delay := 10, minTimeout := 3 }
    minSched devC8f "failed" 1 (60 * 60 + 2) stateC8
    (by decide) (by decide) (by omega)
    (fun i hi => by
      have h2 : i = 0 ∨ i = 1 := by omega
      rcases h2 with h2 | h2 <;> subst h2 <;> decide)
    (fun i hi => by
      have h2 : i = 0 := by omega
      subst h2
      exact ⟨by decide, Or.inr ⟨by decide, by decide⟩⟩)
    (by decide)

/-- C9 counterexample: a single refresh tick rewrites the tracked attributes —
here the state attribute changes from unset to queued — because the refresh
runs the embedded Read, so it does not leave the local resource data
unchanged. -/
theorem c9_counterexample :
    (newDeviceStateRefreshFunc clientC7 "state" stateC7).1.d.state = "queued" ∧
    stateC7.d.state = "" ∧
    (newDeviceStateRefreshFunc clientC7 "state" stateC7).1.d ≠ stateC7.d := by
  refine ⟨by decide, by decide, by decide⟩

/-- C9 (corrected): the polling loop itself holds no persisted state — after
any run its final state is exactly the refresh function's state transition
iterated once per refresh call, so the poller is pure control flow over the
refresh — but each refresh call may rewrite the locally tracked attributes,
because it runs the embedded Read (and clears the id on not-found). -/
theorem c9_poller_pure_threading {σ : Type} (f : σ → σ × RefreshOut) (conf : StateChangeConf)
    (sched : Nat → Nat) :
    ∀ (fuel n : Nat) (s : σ),
      (waitForStateRec f conf sched fuel n s).1 =
        refreshStates f s (waitForStateRec f conf sched fuel n s).2.2 := by
  intro fuel
  induction fuel with
  | zero => intro n s; rfl
  | succ fl ih =>
    intro n s
    by_cases ht : conf.timeout < sched n
    · simp [waitForStateRec, ht, refreshStates]
    · simp only [waitForStateRec, ht, if_false]
      cases herr : (f s).2.err with
      | some e => rfl
      | none =>
        cases hobj : (f s).2.obj with
        | none =>
          dsimp only
          rw [refreshStates_shift f s ((waitForStateRec f conf sched fl (n + 1) (f s).1).2.2)]
          exact ih (n + 1) (f s).1
        | some dv =>
          dsimp only
          by_cases hvt : (f s).2.value = conf.target
          · rw [if_pos hvt]
            rfl
          · rw [if_neg hvt]
            by_cases hvp : conf.pending.contains (f s).2.value = true
            · rw [if_pos hvp]
              dsimp only
              rw [refreshStates_shift f s
                ((waitForStateRec f conf sched fl (n + 1) (f s).1).2.2)]
              exact ih (n + 1) (f s).1
            · rw [if_neg hvp]
              rfl

/-- C10: on a refresh tick whose awaited state attribute is already
determinable, the device is fetched twice — the observed value handed to the
poller is the state from the first fetch (via the embedded Read), while the
snapshot returned alongside it comes from the separate second Get, so the two
may describe different remote states; and a failure of the second Get makes
the whole tick error even though the first fetch succeeded. -/
theorem c10_two_fetches (client : Client) (s : RState) (dev1 : Device)
    (hg : client.get s.getCount s.d.id = .ok dev1)
    (hst : dev1.state ≠ "") :
    (newDeviceStateRefreshFunc client "state" s).1.getCount = s.getCount + 2 ∧
    (∀ e, client.get (s.getCount + 1) s.d.id = .error e →
      (newDeviceStateRefreshFunc client "state" s).2 =
        ⟨none, "", some ("Error retrieving device: " ++ e)⟩) ∧
    (∀ dev2, client.get (s.getCount + 1) s.d.id = .ok dev2 →
      (newDeviceStateRefreshFunc client "state" s).2 = ⟨some dev2, dev1.state, none⟩) := by
  have hr := read_ok client s dev1 hg
  refine ⟨?_, ?_, ?_⟩
  · cases h2 : client.get (s.getCount + 1) s.d.id with
    | error e => simp [newDeviceStateRefreshFunc, hr, getAttr, hst, h2]
    | ok dev2 => simp [newDeviceStateRefreshFunc, hr, getAttr, hst, h2]
  · intro e he
    simp [newDeviceStateRefreshFunc, hr, getAttr, hst, he]
  · intro dev2 hd
    simp [newDeviceStateRefreshFunc, hr, getAttr, hst, hd]

/-- Device snapshot in the active state, as the first fetch of a tick sees
it. -/
def devC10a : Device :=
  { id := "dev1", osSlug := "ubuntu", hostname := "h", facilityCode := "ewr1",
    planSlug := "baremetal_1", state := "active", locked := false, network := [] }

/-- Device snapshot in the off state, as the second fetch of the same tick
sees it. -/
def devC10b : Device := { devC10a with state := "off" }

/-- Client whose remote state flips between the two Gets of a single tick. -/
def clientC10 : Client :=
  { clientC1 with get := fun n _ => if n = 0 then .ok devC10a else .ok devC10b }

/-- Local state tracking the device observed by clientC10. -/
def stateC10 : RState := { emptyState with d := { emptyData with id := "dev1" } }

/-- C10 witness: one tick returns the value of the first fetch next to the
snapshot of the second fetch, which differ, after two Get calls. -/
theorem c10_witness :
    (newDeviceStateRefreshFunc clientC10 "state" stateC10).2 =
      ⟨some devC10b, "active", none⟩ ∧
    devC10b.state ≠ devC10a.state ∧
    (newDeviceStateRefreshFunc clientC10 "state" stateC10).1.getCount = 2 := by
  have h := c10_two_fetches clientC10 stateC10 devC10a rfl (by decide)
  exact ⟨h.2.2 devC10b rfl, by decide, h.1⟩
